import Mathlib

/-!
Shallow embedding of the two demo clients of this repository
(`vllm_demo.py`, the CLI front end, and `vllm_web_demo.py`, the Flask web
front end) and proofs about the claims of the specification.

The HTTP transport is modelled as a function from the request the code
builds (`HttpRequest`) to an outcome (`TransportResult`): either a
transport-level error (timeout, connection refused, DNS failure — in
Python a `requests.exceptions.RequestException`) or a response with a
status code and an already-parsed JSON body.  Python exceptions that can
escape the clients (`KeyError`, `IndexError`, `TypeError` from subscript
access on a parsed body) are made explicit with `Except PyExn`.
-/

namespace VLLMDemo

/-- Parsed JSON value, as returned by `response.json()`. -/
inductive Json where
  | null : Json
  | bool (b : Bool) : Json
  | num (n : Rat) : Json
  | str (s : String) : Json
  | arr (elems : List Json) : Json
  | obj (entries : List (String × Json)) : Json

/-- Python exceptions that the clients do NOT catch (they catch only
`requests.exceptions.RequestException`): subscript failures on the parsed
JSON body. -/
inductive PyExn where
  | keyError (key : String) : PyExn
  | indexError : PyExn
  | typeError : PyExn
deriving DecidableEq, Repr

/-- `result["k"]` on a parsed JSON value: `KeyError` when the key is absent
from a dict, `TypeError` when the value is not a dict. -/
def Json.getKey : Json → String → Except PyExn Json
  | .obj entries, k =>
    match entries.lookup k with
    | some v => .ok v
    | none => .error (.keyError k)
  | _, _ => .error .typeError

/-- `result[i]` on a parsed JSON value: `IndexError` when the list is too
short, `TypeError` when the value is not a list. -/
def Json.getIdx : Json → Nat → Except PyExn Json
  | .arr elems, i =>
    match elems.get? i with
    | some v => .ok v
    | none => .error .indexError
  | _, _ => .error .typeError

/-- `result.get("k", default)` on a parsed JSON dict. -/
def Json.getD : Json → String → Json → Json
  | .obj entries, k, d => ((entries.lookup k).getD d)
  | _, _, d => d

/-- Default whitespace set of Python `str.strip()`. -/
def pyWhitespace (c : Char) : Bool :=
  c = ' ' || c = '\t' || c = '\n' || c = '\r' || c = '\x0b' || c = '\x0c'

/-- Python `str.strip()`: remove leading and trailing whitespace. -/
def pyStrip (s : String) : String :=
  String.mk (((s.data.dropWhile pyWhitespace).reverse.dropWhile pyWhitespace).reverse)

/-- Python `str.lower()` (the inputs compared here are ASCII, where
`Char.toLower` agrees with Python). -/
def pyLower (s : String) : String :=
  String.mk (s.data.map Char.toLower)

/-- One chat message `{"role": ..., "content": ...}`.  The content is an
arbitrary JSON value because the code stores whatever the downstream
response carried, without validating that it is a string. -/
structure Message where
  role : String
  content : Json

/-- Request body built by the completion calls:
`{"model", "messages" | "prompt", "max_tokens", "temperature", "stream": False}`. -/
structure Payload where
  model : String
  messages : Option (List Message)
  prompt : Option String
  max_tokens : Nat
  temperature : Rat
  stream : Bool

inductive Method where
  | get : Method
  | post : Method
deriving DecidableEq, Repr

/-- The outbound HTTP request as the code builds it: method, URL, optional
JSON payload and the `timeout=` argument in seconds. -/
structure HttpRequest where
  method : Method
  url : String
  payload : Option Payload
  timeout : Nat

/-- Outcome of one HTTP exchange: either a transport error (raised as a
`requests.exceptions.RequestException`, carrying its message) or a
response with a status code and parsed JSON body. -/
inductive TransportResult where
  | transportError (msg : String) : TransportResult
  | response (status : Nat) (body : Json) : TransportResult

/-- `response.raise_for_status()` raises an `HTTPError` (a subclass of
`RequestException`, hence caught by the clients) exactly for 4xx and 5xx
status codes. -/
def raiseForStatus (status : Nat) : Bool :=
  400 ≤ status && status < 600

/-- A transport outcome that the clients' `except RequestException`
handler turns into their failure value: a transport error, or a response
whose status makes `raise_for_status` raise. -/
def TransportResult.isFailure : TransportResult → Bool
  | .transportError _ => true
  | .response status _ => raiseForStatus status

/-- Model of `str(e)` for the `HTTPError` raised by `raise_for_status`:
some diagnostic string mentioning the status. -/
def httpErrorStr (status : Nat) : String :=
  "HTTP error " ++ toString status

/-! ## Endpoint resolution (`VLLMClient.__init__` / `get_vllm_base_url`) -/

/-- Outcome of the `kubectl get svc vllm-service -o jsonpath=...`
discovery query run through `subprocess.run`: either the call raised
(e.g. `TimeoutExpired` after the 10 s timeout, or `FileNotFoundError`
when `kubectl` is absent) or it completed with a return code and stdout. -/
inductive KubectlResult where
  | raised : KubectlResult
  | completed (returncode : Int) (stdout : String) : KubectlResult

/-- The kubectl-discovery branch shared by both files: on return code 0
with non-empty stripped stdout use the discovered IP, otherwise (and on
any exception, which the `except` clause swallows) fall back to
`http://localhost:8080`. -/
def resolveFromKubectl : KubectlResult → String
  | .raised => "http://localhost:8080"
  | .completed returncode stdout =>
    if returncode = 0 ∧ pyStrip stdout ≠ "" then
      "http://" ++ pyStrip stdout ++ ":8080"
    else
      "http://localhost:8080"

/-- Base-URL resolution of `VLLMClient.__init__` (`vllm_demo.py` lines
27–51) and, for the `base_url = None` case, of `get_vllm_base_url`
(`vllm_web_demo.py` lines 77–104): caller override (`base_url is None`
check), then the `VLLM_IP` environment variable (`if vllm_ip:` — a set
but empty variable is falsy and falls through), then kubectl discovery,
then the fixed fallback. -/
def resolveBaseUrl (base_url : Option String) (vllm_ip : Option String)
    (kubectl : KubectlResult) : String :=
  match base_url with
  | some u => u
  | none =>
    match vllm_ip with
    | some ip => if ip ≠ "" then "http://" ++ ip ++ ":8080" else resolveFromKubectl kubectl
    | none => resolveFromKubectl kubectl

/-- `VLLMWebClient.__init__`: `self.base_url = base_url or VLLM_BASE_URL`
(Python `or`: a `None` or empty override falls back to the module-level
resolved URL). -/
def webClientBaseUrl (base_url : Option String) (resolved : String) : String :=
  match base_url with
  | some u => if u = "" then resolved else u
  | none => resolved

/-! ## CLI client (`vllm_demo.py`, class `VLLMClient`) -/

/-- The CLI client object: its only attributes are `base_url` and
`model`, set in `__init__` and never reassigned afterwards. -/
structure VLLMClient where
  base_url : String
  model : String

/-- Request issued by `VLLMClient.health_check`:
`requests.get(f"{base_url}/health", timeout=10)`. -/
def healthRequest (c : VLLMClient) : HttpRequest :=
  ⟨.get, c.base_url ++ "/health", none, 10⟩

/-- Request issued by `VLLMClient.get_models`:
`requests.get(f"{base_url}/v1/models", timeout=10)`. -/
def modelsRequest (c : VLLMClient) : HttpRequest :=
  ⟨.get, c.base_url ++ "/v1/models", none, 10⟩

/-- Request issued by `VLLMClient.chat_completion`: POST to
`/v1/chat/completions` with the chat payload and `timeout=30`. -/
def chatRequest (c : VLLMClient) (messages : List Message)
    (max_tokens : Nat) (temperature : Rat) : HttpRequest :=
  ⟨.post, c.base_url ++ "/v1/chat/completions",
    some ⟨c.model, some messages, none, max_tokens, temperature, false⟩, 30⟩

/-- Request issued by `VLLMClient.completion` (legacy format): POST to
`/v1/completions` with a prompt payload and `timeout=30`. -/
def completionRequest (c : VLLMClient) (prompt : String)
    (max_tokens : Nat) (temperature : Rat) : HttpRequest :=
  ⟨.post, c.base_url ++ "/v1/completions",
    some ⟨c.model, none, some prompt, max_tokens, temperature, false⟩, 30⟩

/-- `VLLMClient.health_check` (lines 53–59): `status_code == 200` on a
response, `False` on any `RequestException`.  Total: it cannot raise. -/
def VLLMClient.health_check (c : VLLMClient)
    (transport : HttpRequest → TransportResult) : Bool :=
  match transport (healthRequest c) with
  | .transportError _ => false
  | .response status _ => status == 200

/-- `VLLMClient.get_models` (lines 61–69): returns
`response.json()["data"]`; a `RequestException` (transport error or
`raise_for_status` on 4xx/5xx) is caught, logged and turned into `[]`.
A `KeyError`/`TypeError` from the `["data"]` subscript is NOT caught. -/
def VLLMClient.get_models (c : VLLMClient)
    (transport : HttpRequest → TransportResult) : Except PyExn Json :=
  match transport (modelsRequest c) with
  | .transportError _ => .ok (.arr [])
  | .response status body =>
    if raiseForStatus status then .ok (.arr [])
    else body.getKey "data"

/-- `VLLMClient.chat_completion` (lines 71–93): on success returns
`result["choices"][0]["message"]["content"]`; a `RequestException` is
caught and turned into `None`; subscript errors on the body are NOT
caught.  The method never assigns to `self`, so the returned client state
is the input state unchanged. -/
def VLLMClient.chat_completion (c : VLLMClient)
    (transport : HttpRequest → TransportResult) (messages : List Message)
    (max_tokens : Nat) (temperature : Rat) :
    Except PyExn (Option Json) × VLLMClient :=
  let result :=
    match transport (chatRequest c messages max_tokens temperature) with
    | .transportError _ => Except.ok none
    | .response status body =>
      if raiseForStatus status then .ok none
      else
        match body.getKey "choices" >>= (Json.getIdx · 0) >>=
            (Json.getKey · "message") >>= (Json.getKey · "content") with
        | .ok content => .ok (some content)
        | .error e => .error e
  (result, c)

/-- `VLLMClient.completion` (lines 95–117, legacy format): on success
returns `result["choices"][0]["text"]`; a `RequestException` is caught
and turned into `None`; subscript errors are NOT caught. -/
def VLLMClient.completion (c : VLLMClient)
    (transport : HttpRequest → TransportResult) (prompt : String)
    (max_tokens : Nat) (temperature : Rat) :
    Except PyExn (Option Json) × VLLMClient :=
  let result :=
    match transport (completionRequest c prompt max_tokens temperature) with
    | .transportError _ => Except.ok none
    | .response status body =>
      if raiseForStatus status then .ok none
      else
        match body.getKey "choices" >>= (Json.getIdx · 0) >>=
            (Json.getKey · "text") with
        | .ok text => .ok (some text)
        | .error e => .error e
  (result, c)

/-! ## Web client (`vllm_web_demo.py`, class `VLLMWebClient`) -/

/-- The web client object: attributes `base_url` and `model`, set in
`__init__` and never reassigned afterwards. -/
structure VLLMWebClient where
  base_url : String
  model : String

/-- Result dict of `VLLMWebClient.chat_completion`:
`{"success": True, "content", "usage"}` or `{"success": False, "error"}`. -/
inductive WebCompletion where
  | success (content : Json) (usage : Json) : WebCompletion
  | failure (error : String) : WebCompletion

/-- Request issued by `VLLMWebClient.health_check`:
`requests.get(f"{base_url}/health", timeout=5)`. -/
def webHealthRequest (c : VLLMWebClient) : HttpRequest :=
  ⟨.get, c.base_url ++ "/health", none, 5⟩

/-- Request issued by `VLLMWebClient.get_models`:
`requests.get(f"{base_url}/v1/models", timeout=10)`. -/
def webModelsRequest (c : VLLMWebClient) : HttpRequest :=
  ⟨.get, c.base_url ++ "/v1/models", none, 10⟩

/-- Request issued by `VLLMWebClient.chat_completion`: POST to
`/v1/chat/completions` with the chat payload and `timeout=30`. -/
def webChatRequest (c : VLLMWebClient) (messages : List Message)
    (max_tokens : Nat) (temperature : Rat) : HttpRequest :=
  ⟨.post, c.base_url ++ "/v1/chat/completions",
    some ⟨c.model, some messages, none, max_tokens, temperature, false⟩, 30⟩

/-- `VLLMWebClient.health_check` (lines 134–140): `status_code == 200` on
a response, `False` on any `RequestException`.  Total: it cannot raise. -/
def VLLMWebClient.health_check (c : VLLMWebClient)
    (transport : HttpRequest → TransportResult) : Bool :=
  match transport (webHealthRequest c) with
  | .transportError _ => false
  | .response status _ => status == 200

/-- `VLLMWebClient.get_models` (lines 142–149): returns
`response.json()["data"]`; a `RequestException` is caught and turned into
`{"error": str(e)}`.  Subscript errors on the body are NOT caught. -/
def VLLMWebClient.get_models (c : VLLMWebClient)
    (transport : HttpRequest → TransportResult) : Except PyExn Json :=
  match transport (webModelsRequest c) with
  | .transportError msg => .ok (.obj [("error", .str msg)])
  | .response status body =>
    if raiseForStatus status then .ok (.obj [("error", .str (httpErrorStr status))])
    else body.getKey "data"

/-- `VLLMWebClient.chat_completion` (lines 151–176): on success returns
`{"success": True, "content": result["choices"][0]["message"]["content"],
"usage": result.get("usage", {})}`; a `RequestException` is caught and
turned into `{"success": False, "error": str(e)}`; subscript errors on
the body are NOT caught.  The method never assigns to `self`, so the
returned client state is the input state unchanged. -/
def VLLMWebClient.chat_completion (c : VLLMWebClient)
    (transport : HttpRequest → TransportResult) (messages : List Message)
    (max_tokens : Nat) (temperature : Rat) :
    Except PyExn WebCompletion × VLLMWebClient :=
  let result :=
    match transport (webChatRequest c messages max_tokens temperature) with
    | .transportError msg => Except.ok (WebCompletion.failure msg)
    | .response status body =>
      if raiseForStatus status then .ok (.failure (httpErrorStr status))
      else
        match body.getKey "choices" >>= (Json.getIdx · 0) >>=
            (Json.getKey · "message") >>= (Json.getKey · "content") with
        | .ok content => .ok (.success content (body.getD "usage" (.obj [])))
        | .error e => .error e
  (result, c)

/-! ## Web route `/api/chat` (`vllm_web_demo.py` lines 206–238) -/

/-- Observable outcome of one POST to `/api/chat`:
* `response` — the HTTP status and JSON body sent back, or the Python
  exception when one escapes the handler;
* `session_history` — the transcript persisted in the session afterwards.
  Flask's cookie session serialises only when an item is assigned
  (`session['chat_history'] = ...`, success path); the in-place
  `chat_history.append(...)` alone does not mark the session modified, so
  on the empty-message, failure and exception paths the persisted
  transcript is the one the request started with;
* `calls` — the transcripts handed to the downstream
  `vllm_client.chat_completion` call (at most one per request). -/
structure ApiChatOutcome where
  response : Except PyExn (Nat × Json)
  session_history : List Message
  calls : List (List Message)

/-- The `/api/chat` handler `api_chat`: strips the message, rejects an
empty one with a 400, otherwise appends `{"role": "user", ...}` to the
session transcript, calls `vllm_client.chat_completion(chat_history)`
(defaults `max_tokens=200`, `temperature=0.7`), and on success appends
the assistant reply and persists the transcript; on failure answers 500
with the error and persists nothing. -/
def api_chat (client : VLLMWebClient) (transport : HttpRequest → TransportResult)
    (history : List Message) (rawMessage : String) : ApiChatOutcome :=
  let message := pyStrip rawMessage
  if message = "" then
    ⟨.ok (400, .obj [("error", .str "Message cannot be empty")]), history, []⟩
  else
    let chat_history := history ++ [⟨"user", .str message⟩]
    match (client.chat_completion transport chat_history 200 (7 / 10)).1 with
    | .error e => ⟨.error e, history, [chat_history]⟩
    | .ok (.success content usage) =>
      ⟨.ok (200, .obj [("success", .bool true), ("response", content), ("usage", usage)]),
        chat_history ++ [⟨"assistant", content⟩], [chat_history]⟩
    | .ok (.failure err) =>
      ⟨.ok (500, .obj [("success", .bool false), ("error", .str err)]),
        history, [chat_history]⟩

/-! ## CLI interactive loop (`vllm_demo.py`, `interactive_chat`,
lines 172–219) -/

/-- Observable outcome of the interactive loop on a finite input script:
final local transcript, the transcripts handed to `chat_completion`, and
whether the loop ended through an explicit `quit`/`exit` line (`True`) or
by exhausting the script while still waiting for input (`False`). -/
structure ChatLoopOutcome where
  messages : List Message
  calls : List (List Message)
  clean_exit : Bool

/-- One-loop-iteration-per-line embedding of `interactive_chat`: strip
the line; `quit`/`exit` (lowercased) break the loop; `clear` resets the
transcript; an empty line is skipped; otherwise append the user message,
call `chat_completion(messages, max_tokens=200)` and append the assistant
reply when one came back (`None` leaves only the user message; an escaped
exception from the call is caught by the iteration-level
`except Exception` and the loop continues, the user message kept). -/
def interactiveChatLoop (client : VLLMClient)
    (transport : HttpRequest → TransportResult) :
    List String → List Message → List (List Message) → ChatLoopOutcome
  | [], messages, calls => ⟨messages, calls, false⟩
  | line :: rest, messages, calls =>
    let user_input := pyStrip line
    if pyLower user_input = "quit" || pyLower user_input = "exit" then
      ⟨messages, calls, true⟩
    else if pyLower user_input = "clear" then
      interactiveChatLoop client transport rest [] calls
    else if user_input = "" then
      interactiveChatLoop client transport rest messages calls
    else
      let messages2 := messages ++ [⟨"user", .str user_input⟩]
      match (client.chat_completion transport messages2 200 (7 / 10)).1 with
      | .ok (some content) =>
        interactiveChatLoop client transport rest
          (messages2 ++ [⟨"assistant", content⟩]) (calls ++ [messages2])
      | .ok none =>
        interactiveChatLoop client transport rest messages2 (calls ++ [messages2])
      | .error _ =>
        interactiveChatLoop client transport rest messages2 (calls ++ [messages2])

/-! ## Theorems about the claims -/

/-- Claim C3 (confirmed): endpoint resolution tries, in order, the caller
override, the `VLLM_IP` environment variable, the kubectl discovery
query, and the fixed fallback.  With `VLLM_IP=10.0.0.5` the base URL is
exactly `http://10.0.0.5:8080`; with the variable absent and the
discovery raising (timeout included) or completing unusably, it is
exactly `http://localhost:8080`.  `resolveFromKubectl` is a total
function: every discovery error is an explicit constructor that falls
through to the fallback, never a raised exception.  The last two
conjuncts cover the web client's own override step
(`base_url or VLLM_BASE_URL`). -/
theorem c3_endpoint_resolution_order (u ip : String) (env : Option String)
    (k : KubectlResult) :
    resolveBaseUrl (some u) env k = u ∧
    (ip ≠ "" → resolveBaseUrl none (some ip) k = "http://" ++ ip ++ ":8080") ∧
    resolveBaseUrl none (some "10.0.0.5") k = "http://10.0.0.5:8080" ∧
    resolveBaseUrl none none .raised = "http://localhost:8080" ∧
    (∀ rc out, ¬(rc = 0 ∧ pyStrip out ≠ "") →
      resolveBaseUrl none none (.completed rc out) = "http://localhost:8080") ∧
    (∀ out, pyStrip out ≠ "" →
      resolveBaseUrl none none (.completed 0 out) = "http://" ++ pyStrip out ++ ":8080") ∧
    webClientBaseUrl none (resolveBaseUrl none env k) = resolveBaseUrl none env k ∧
    (u ≠ "" → webClientBaseUrl (some u) (resolveBaseUrl none env k) = u) := by
  refine ⟨rfl, ?_, ?_, ?_, ?_, ?_, rfl, ?_⟩
  · intro h
    simp [resolveBaseUrl, h]
  · simp [resolveBaseUrl]
  · rfl
  · intro rc out h
    simp only [resolveBaseUrl, resolveFromKubectl]
    rw [if_neg h]
  · intro out h
    simp [resolveBaseUrl, resolveFromKubectl, h]
  · intro h
    simp [webClientBaseUrl, h]

/-- Witness for C3 at concrete inputs: an explicit override wins, the
environment variable gives `http://10.0.0.5:8080`, a failed discovery
(non-zero return code) gives the fallback, and a successful discovery
gives the stripped stdout. -/
theorem c3_endpoint_resolution_order_witness :
    resolveBaseUrl (some "http://10.9.8.7:1234") none .raised = "http://10.9.8.7:1234" ∧
    resolveBaseUrl none (some "10.0.0.5") .raised = "http://10.0.0.5:8080" ∧
    resolveBaseUrl none none (.completed 1 "") = "http://localhost:8080" ∧
    resolveBaseUrl none none (.completed 0 " 10.1.2.3\n") = "http://10.1.2.3:8080" := by
  obtain ⟨h1, _, h3, _, h5, h6, _, _⟩ :=
    c3_endpoint_resolution_order "http://10.9.8.7:1234" "10.0.0.5" none .raised
  refine ⟨h1, h3, h5 1 "" (by decide), (h6 " 10.1.2.3\n" (by decide)).trans (by decide)⟩

/-- Claim C7 fails as stated: the CLI health-check timeout is 10 seconds
(`requests.get(..., timeout=10)` in `vllm_demo.py` line 56), which is not
a single-digit number of seconds, and it is not strictly shorter than the
10-second model-list timeout bound the claim's wording would force on
itself; concretely `10 ≤ 9` is false. -/
theorem c7_counterexample :
    (healthRequest ⟨"http://localhost:8080", "Qwen/Qwen2.5-1.5B-Instruct"⟩).timeout = 10 ∧
    ¬(healthRequest ⟨"http://localhost:8080", "Qwen/Qwen2.5-1.5B-Instruct"⟩).timeout ≤ 9 := by
  exact ⟨rfl, by decide⟩

/-- Claim C7 amended: for every client, the health and model-list
requests carry a timeout of 10 seconds in the CLI and of 5 (health) or
10 (models) seconds in the web client — at most ten seconds, not
single-digit — and each is strictly shorter than the 30-second timeout
on every completion request. -/
theorem c7_timeouts_amended (c : VLLMClient) (w : VLLMWebClient)
    (messages : List Message) (prompt : String) (mt mt2 mt3 : Nat)
    (t1 t2 t3 : Rat) :
    (healthRequest c).timeout = 10 ∧
    (modelsRequest c).timeout = 10 ∧
    (webHealthRequest w).timeout = 5 ∧
    (webModelsRequest w).timeout = 10 ∧
    (chatRequest c messages mt t1).timeout = 30 ∧
    (completionRequest c prompt mt2 t2).timeout = 30 ∧
    (webChatRequest w messages mt3 t3).timeout = 30 ∧
    (healthRequest c).timeout < (chatRequest c messages mt t1).timeout ∧
    (modelsRequest c).timeout < (completionRequest c prompt mt2 t2).timeout ∧
    (webHealthRequest w).timeout < (webChatRequest w messages mt3 t3).timeout ∧
    (webModelsRequest w).timeout < (webChatRequest w messages mt3 t3).timeout := by
  refine ⟨rfl, rfl, rfl, rfl, rfl, rfl, rfl, ?_, ?_, ?_, ?_⟩ <;>
    simp [healthRequest, modelsRequest, webHealthRequest, webModelsRequest,
      chatRequest, completionRequest, webChatRequest]

/-- Claim C5 fails as stated on the "true iff the response status
indicates success" clause: both health checks compare the status to 200
exactly, so a 204 response — a success-class (2xx) status — yields
`false`.  Shown here for the CLI client at a stub transport returning
status 204. -/
theorem c5_counterexample :
    ¬((VLLMClient.health_check ⟨"http://localhost:8080", "Qwen/Qwen2.5-1.5B-Instruct"⟩
        (fun _ => .response 204 .null)) = true ↔ (200 ≤ 204 ∧ 204 < 300)) := by
  decide

/-- Claim C5 amended: for every endpoint and every transport behaviour,
both health checks are total Boolean functions (they cannot raise:
`Bool`-valued by construction, every transport error mapped to `false`),
and they return `true` iff the transport produced a response with status
exactly 200 — not for every success-class status. -/
theorem c5_health_check_amended (c : VLLMClient) (w : VLLMWebClient)
    (transport : HttpRequest → TransportResult) :
    (c.health_check transport = true ↔
      ∃ body, transport (healthRequest c) = .response 200 body) ∧
    (w.health_check transport = true ↔
      ∃ body, transport (webHealthRequest w) = .response 200 body) := by
  constructor
  · rw [VLLMClient.health_check]
    cases h : transport (healthRequest c) with
    | transportError msg => simp
    | response status body =>
      simp only [beq_iff_eq, TransportResult.response.injEq]
      constructor
      · rintro rfl
        exact ⟨body, rfl, rfl⟩
      · rintro ⟨b, hb, _⟩
        exact hb
  · rw [VLLMWebClient.health_check]
    cases h : transport (webHealthRequest w) with
    | transportError msg => simp
    | response status body =>
      simp only [beq_iff_eq, TransportResult.response.injEq]
      constructor
      · rintro rfl
        exact ⟨body, rfl, rfl⟩
      · rintro ⟨b, hb, _⟩
        exact hb

/-- Claim C1 fails as stated: the completion operations catch only
`requests.exceptions.RequestException`, so on a 200 response whose JSON
body lacks the expected keys the subscript exception propagates past the
boundary instead of becoming a failure value.  Concretely, a 200 response
with body `{}` makes the CLI `chat_completion` raise `KeyError("choices")`. -/
theorem c1_counterexample :
    ((VLLMClient.chat_completion ⟨"http://localhost:8080", "Qwen/Qwen2.5-1.5B-Instruct"⟩
        (fun _ => .response 200 (.obj [])) [] 100 (7 / 10)).1
      = .error (.keyError "choices")) := rfl

/-- Claim C1 amended: on any transport error and on any response whose
status is 4xx/5xx (the cases `raise_for_status` turns into a caught
`RequestException`), the chat/legacy completion operations return their
failure value — `None` for the CLI, `{"success": False, "error": ...}`
for the web client — and no exception escapes; but a success-status
response with a body missing the 'choices'/'message'/'content'/'text'
keys raises past the boundary (see the counterexample). -/
theorem c1_completion_failure_boundary (c : VLLMClient) (w : VLLMWebClient)
    (transport : HttpRequest → TransportResult) (messages : List Message)
    (prompt : String) (mt mt2 mt3 : Nat) (t1 t2 t3 : Rat)
    (hfail : ∀ req, (transport req).isFailure = true) :
    (c.chat_completion transport messages mt t1).1 = .ok none ∧
    (c.completion transport prompt mt2 t2).1 = .ok none ∧
    (∃ err, (w.chat_completion transport messages mt3 t3).1 = .ok (.failure err)) := by
  refine ⟨?_, ?_, ?_⟩
  · simp only [VLLMClient.chat_completion]
    cases h : transport (chatRequest c messages mt t1) with
    | transportError msg => rfl
    | response status body =>
      have hs := hfail (chatRequest c messages mt t1)
      rw [h] at hs
      simp only [TransportResult.isFailure] at hs
      simp [hs]
  · simp only [VLLMClient.completion]
    cases h : transport (completionRequest c prompt mt2 t2) with
    | transportError msg => rfl
    | response status body =>
      have hs := hfail (completionRequest c prompt mt2 t2)
      rw [h] at hs
      simp only [TransportResult.isFailure] at hs
      simp [hs]
  · simp only [VLLMWebClient.chat_completion]
    cases h : transport (webChatRequest w messages mt3 t3) with
    | transportError msg => exact ⟨msg, rfl⟩
    | response status body =>
      have hs := hfail (webChatRequest w messages mt3 t3)
      rw [h] at hs
      simp only [TransportResult.isFailure] at hs
      refine ⟨httpErrorStr status, ?_⟩
      simp [hs]

/-- Witness for the amended C1 at a concrete input: a transport that
always fails with "connection refused" makes both CLI operations return
`None` and the web client return a failure object. -/
theorem c1_completion_failure_boundary_witness :
    ((⟨"http://localhost:8080", "Qwen/Qwen2.5-1.5B-Instruct"⟩ : VLLMClient).chat_completion
        (fun _ => .transportError "connection refused") [] 100 (7 / 10)).1 = .ok none ∧
    ((⟨"http://localhost:8080", "Qwen/Qwen2.5-1.5B-Instruct"⟩ : VLLMClient).completion
        (fun _ => .transportError "connection refused") "The future of AI is" 50 (7 / 10)).1
      = .ok none ∧
    (∃ err, ((⟨"http://localhost:8080", "Qwen/Qwen2.5-1.5B-Instruct"⟩ : VLLMWebClient).chat_completion
        (fun _ => .transportError "connection refused") [] 200 (7 / 10)).1
      = .ok (.failure err)) :=
  c1_completion_failure_boundary
    ⟨"http://localhost:8080", "Qwen/Qwen2.5-1.5B-Instruct"⟩
    ⟨"http://localhost:8080", "Qwen/Qwen2.5-1.5B-Instruct"⟩
    (fun _ => .transportError "connection refused") [] "The future of AI is"
    100 50 200 (7 / 10) (7 / 10) (7 / 10) (fun _ => rfl)

/-- Claim C6 (confirmed): on every transport error and on every 4xx/5xx
response (the "non-2xx failure" statuses `raise_for_status` raises on),
neither model-listing variant lets an exception escape: the CLI
`get_models` returns the empty list and the web `get_models` returns a
`{"error": ...}` object. -/
theorem c6_get_models_failure (c : VLLMClient) (w : VLLMWebClient)
    (transport : HttpRequest → TransportResult)
    (hc : (transport (modelsRequest c)).isFailure = true)
    (hw : (transport (webModelsRequest w)).isFailure = true) :
    c.get_models transport = .ok (.arr []) ∧
    (∃ err, w.get_models transport = .ok (.obj [("error", .str err)])) := by
  constructor
  · rw [VLLMClient.get_models]
    cases h : transport (modelsRequest c) with
    | transportError msg => rfl
    | response status body =>
      rw [h] at hc
      simp only [TransportResult.isFailure] at hc
      simp [hc]
  · rw [VLLMWebClient.get_models]
    cases h : transport (webModelsRequest w) with
    | transportError msg => exact ⟨msg, rfl⟩
    | response status body =>
      rw [h] at hw
      simp only [TransportResult.isFailure] at hw
      refine ⟨httpErrorStr status, ?_⟩
      simp [hw]

/-- Witness for C6 at a concrete input: a transport that always times
out makes the CLI variant return `[]` and the web variant return an
error object. -/
theorem c6_get_models_failure_witness :
    (⟨"http://localhost:8080", "Qwen/Qwen2.5-1.5B-Instruct"⟩ : VLLMClient).get_models
        (fun _ => .transportError "timeout") = .ok (.arr []) ∧
    (∃ err, (⟨"http://localhost:8080", "Qwen/Qwen2.5-1.5B-Instruct"⟩ : VLLMWebClient).get_models
        (fun _ => .transportError "timeout") = .ok (.obj [("error", .str err)])) :=
  c6_get_models_failure
    ⟨"http://localhost:8080", "Qwen/Qwen2.5-1.5B-Instruct"⟩
    ⟨"http://localhost:8080", "Qwen/Qwen2.5-1.5B-Instruct"⟩
    (fun _ => .transportError "timeout") rfl rfl

/-- Claim C9 (confirmed): the completion operations thread the client
state explicitly and return it unchanged — the methods never assign to
`self` — so against any fixed (hence deterministic) transport stub, a
second call with identical arguments, made on the state the first call
returned, yields exactly the first call's result, for both the CLI and
the web client. -/
theorem c9_completion_deterministic (c : VLLMClient) (w : VLLMWebClient)
    (transport : HttpRequest → TransportResult) (messages : List Message)
    (mt mtw : Nat) (t tw : Rat) :
    ((c.chat_completion transport messages mt t).2 = c ∧
      ((c.chat_completion transport messages mt t).2.chat_completion
          transport messages mt t).1
        = (c.chat_completion transport messages mt t).1) ∧
    ((w.chat_completion transport messages mtw tw).2 = w ∧
      ((w.chat_completion transport messages mtw tw).2.chat_completion
          transport messages mtw tw).1
        = (w.chat_completion transport messages mtw tw).1) :=
  ⟨⟨rfl, rfl⟩, ⟨rfl, rfl⟩⟩

/-- Claim C4 (confirmed): every POST to `/api/chat` whose message strips
to the empty string gets a 400 response whose body has an `error` field,
the session transcript is persisted unchanged, and no downstream
completion call is made. -/
theorem c4_empty_message_rejected (w : VLLMWebClient)
    (transport : HttpRequest → TransportResult) (history : List Message)
    (rawMessage : String) (h : pyStrip rawMessage = "") :
    api_chat w transport history rawMessage =
      ⟨.ok (400, .obj [("error", .str "Message cannot be empty")]), history, []⟩ := by
  simp only [api_chat]
  rw [if_pos h]

/-- Witness for C4 at a concrete input: a whitespace-only message on a
non-empty session leaves the transcript as it was and calls nothing. -/
theorem c4_empty_message_rejected_witness :
    api_chat ⟨"http://localhost:8080", "Qwen/Qwen2.5-1.5B-Instruct"⟩
        (fun _ => .transportError "unreachable")
        [⟨"user", .str "Hi"⟩] "  \t " =
      ⟨.ok (400, .obj [("error", .str "Message cannot be empty")]),
        [⟨"user", .str "Hi"⟩], []⟩ :=
  c4_empty_message_rejected _ _ _ _ (by decide)

/-- Claim C10 (confirmed): when the downstream completion fails on a
non-empty message, `/api/chat` answers 500 with
`{"success": False, "error": ...}` and the persisted session transcript
is exactly the pre-request one — the appended user message is assigned
back to the session only on the success path — while the one downstream
call did receive the transcript with the user message appended. -/
theorem c10_failure_preserves_session (w : VLLMWebClient)
    (transport : HttpRequest → TransportResult) (history : List Message)
    (rawMessage : String) (err : String)
    (hne : ¬pyStrip rawMessage = "")
    (hfail : (w.chat_completion transport
        (history ++ [⟨"user", .str (pyStrip rawMessage)⟩]) 200 (7 / 10)).1
      = .ok (.failure err)) :
    api_chat w transport history rawMessage =
      ⟨.ok (500, .obj [("success", .bool false), ("error", .str err)]), history,
        [history ++ [⟨"user", .str (pyStrip rawMessage)⟩]]⟩ := by
  simp only [api_chat]
  rw [if_neg hne, hfail]

/-- Witness for C10 at a concrete input: an unreachable endpoint on the
message "Hi" gives a 500 failure body and leaves the persisted session
transcript empty. -/
theorem c10_failure_preserves_session_witness :
    api_chat ⟨"http://localhost:8080", "Qwen/Qwen2.5-1.5B-Instruct"⟩
        (fun _ => .transportError "connection refused") [] "Hi" =
      ⟨.ok (500, .obj [("success", .bool false), ("error", .str "connection refused")]),
        [], [[⟨"user", .str "Hi"⟩]]⟩ :=
  c10_failure_preserves_session _ _ _ _ _ (by decide) rfl

/-- Claim C2 (confirmed): on a fresh session, POSTing "Hi" to
`/api/chat` with a successful completion and then POSTing "How are you?"
on the resulting session makes the second downstream completion call
receive exactly the three-message transcript
user "Hi", assistant reply, user "How are you?". -/
theorem c2_session_accumulates (w : VLLMWebClient)
    (transport : HttpRequest → TransportResult) (reply usage : Json)
    (hfirst : (w.chat_completion transport [⟨"user", Json.str "Hi"⟩] 200 (7 / 10)).1
      = .ok (.success reply usage)) :
    (api_chat w transport (api_chat w transport [] "Hi").session_history
        "How are you?").calls =
      [[⟨"user", .str "Hi"⟩, ⟨"assistant", reply⟩, ⟨"user", .str "How are you?"⟩]] := by
  have hs : pyStrip "Hi" = "Hi" := by decide
  have h1 : (api_chat w transport [] "Hi").session_history =
      [⟨"user", Json.str "Hi"⟩, ⟨"assistant", reply⟩] := by
    simp only [api_chat, hs, List.nil_append]
    rw [if_neg (by decide : ¬("Hi" : String) = "")]
    rw [hfirst]
    rfl
  rw [h1]
  simp only [api_chat]
  rw [show pyStrip "How are you?" = "How are you?" from by decide]
  rw [if_neg (by decide : ¬("How are you?" : String) = "")]
  cases h2 : (w.chat_completion transport
      ([⟨"user", Json.str "Hi"⟩, ⟨"assistant", reply⟩] ++
        [⟨"user", Json.str "How are you?"⟩]) 200 (7 / 10)).1 with
  | error e => rfl
  | ok r =>
    cases r with
    | success content usage2 => rfl
    | failure err => rfl

/-- Witness for C2 at a concrete input: a stub endpoint that always
answers with content "Fine" produces the three-message transcript on the
second downstream call. -/
theorem c2_session_accumulates_witness :
    (api_chat ⟨"http://localhost:8080", "Qwen/Qwen2.5-1.5B-Instruct"⟩
        (fun _ => .response 200 (.obj [("choices",
          .arr [.obj [("message", .obj [("content", .str "Fine")])]])]))
        (api_chat ⟨"http://localhost:8080", "Qwen/Qwen2.5-1.5B-Instruct"⟩
          (fun _ => .response 200 (.obj [("choices",
            .arr [.obj [("message", .obj [("content", .str "Fine")])]])]))
          [] "Hi").session_history
        "How are you?").calls =
      [[⟨"user", .str "Hi"⟩, ⟨"assistant", .str "Fine"⟩,
        ⟨"user", .str "How are you?"⟩]] :=
  c2_session_accumulates _ _ (.str "Fine") (.obj []) rfl

/-- Claim C8 (confirmed): for every client and transport, the CLI
interactive loop on the input script `["hello", "clear", "quit"]` issues
exactly one completion call — with the transcript `[user "hello"]` —
ends with the transcript reset to `[]` by `clear`, and terminates through
the `quit` branch (no exception: the loop is a total function and the
quit branch is the clean-exit one). -/
theorem c8_cli_script (client : VLLMClient)
    (transport : HttpRequest → TransportResult) :
    interactiveChatLoop client transport ["hello", "clear", "quit"] [] [] =
      ⟨[], [[⟨"user", .str "hello"⟩]], true⟩ := by
  have tail2 : ∀ calls, interactiveChatLoop client transport ["clear", "quit"] [] calls =
      ⟨[], calls, true⟩ := fun _ => rfl
  have head : interactiveChatLoop client transport ["hello", "clear", "quit"] [] [] =
      match (client.chat_completion transport [⟨"user", Json.str "hello"⟩] 200 (7 / 10)).1 with
      | .ok (some content) =>
        interactiveChatLoop client transport ["clear", "quit"]
          [⟨"user", Json.str "hello"⟩, ⟨"assistant", content⟩] [[⟨"user", Json.str "hello"⟩]]
      | .ok none =>
        interactiveChatLoop client transport ["clear", "quit"]
          [⟨"user", Json.str "hello"⟩] [[⟨"user", Json.str "hello"⟩]]
      | .error e =>
        interactiveChatLoop client transport ["clear", "quit"]
          [⟨"user", Json.str "hello"⟩] [[⟨"user", Json.str "hello"⟩]] := rfl
  rw [head]
  cases h : (client.chat_completion transport [⟨"user", Json.str "hello"⟩] 200 (7 / 10)).1 with
  | error e => rfl
  | ok r =>
    cases r with
    | some content => rfl
    | none => rfl

end VLLMDemo
